import Mathlib

/-!
Shallow embedding of the areamanager persistence and SAR query layer.

The Python sources embedded here are:
* `src/time_range_manager.py` — `TimeRangeManager` (named date ranges, JSON file);
* `src/area_utils.py` — `AOIManager` (named polygon AOIs, GeoJSON file);
* `src/sar_utils.py` — `SARManager` (date validation, query preview, composite pipeline).

File I/O is modelled by passing the store value explicitly: every Python method
first reads the backing file and finally rewrites it, so a method is a function
from the loaded store to the saved store.  `datetime.now()` is modelled by an
explicit `now : String` argument.  Python floats that are only stored and echoed
(coordinates, km2 areas, size estimates) are modelled as exact rationals, since
no lossy arithmetic is performed on them by the embedded code paths.
-/

set_option autoImplicit false

/-! ## Date-string validation, as `datetime.strptime(s, "%Y-%m-%d")`

CPython parses `%Y-%m-%d` with the regex
`\d\d\d\d-(1[0-2]|0[1-9]|[1-9])-(3[01]|[12]\d|0[1-9]|[1-9])`, requires the whole
string to be consumed, and then the `datetime` constructor checks `1 <= year`
and that the day fits the month (with leap years).  Equivalently: four year
digits, a dash, one or two month digits, a dash, one or two day digits, nothing
else, with `1 <= year`, `1 <= month <= 12` and `1 <= day <= daysInMonth`. -/

def charDigit (c : Char) : Nat := c.toNat - 48

def takeDigits : List Char → List Nat × List Char
  | [] => ([], [])
  | c :: cs =>
    if c.isDigit then
      let r := takeDigits cs
      (charDigit c :: r.fst, r.snd)
    else ([], c :: cs)

def digitsToNat (ds : List Nat) : Nat := ds.foldl (fun a d => 10 * a + d) 0

def isLeapYear (y : Nat) : Bool := (y % 4 == 0 && y % 100 != 0) || y % 400 == 0

def daysInMonth (y m : Nat) : Nat :=
  if m == 2 then (if isLeapYear y then 29 else 28)
  else if m == 4 || m == 6 || m == 9 || m == 11 then 30
  else 31

def parseYMD (cs : List Char) : Option (Nat × Nat × Nat) :=
  match cs with
  | y1 :: y2 :: y3 :: y4 :: '-' :: rest =>
    if y1.isDigit && y2.isDigit && y3.isDigit && y4.isDigit then
      let year := digitsToNat [charDigit y1, charDigit y2, charDigit y3, charDigit y4]
      let pm := takeDigits rest
      match pm.snd with
      | '-' :: rest2 =>
        let pd := takeDigits rest2
        if pd.snd = [] ∧ 1 ≤ pm.fst.length ∧ pm.fst.length ≤ 2
            ∧ 1 ≤ pd.fst.length ∧ pd.fst.length ≤ 2 then
          some (year, digitsToNat pm.fst, digitsToNat pd.fst)
        else none
      | _ => none
    else none
  | _ => none

/-- `validDate s = true` iff `datetime.strptime(s, "%Y-%m-%d")` succeeds. -/
def validDate (s : String) : Bool :=
  match parseYMD s.data with
  | some (y, m, d) =>
    decide (1 ≤ y) && decide (1 ≤ m) && decide (m ≤ 12)
      && decide (1 ≤ d) && decide (d ≤ daysInMonth y m)
  | none => false

/-! ## `TimeRangeManager` (src/time_range_manager.py)

`self.timeranges` is a Python dict from range name to a record; a dict is
modelled as an association list with insertion order kept: assigning to an
existing key overwrites its value in place, assigning to a fresh key appends. -/

structure TREntry where
  start_date : String
  end_date : String
  timestamp : String
deriving DecidableEq

/-- Python dict assignment `d[k] = v` on an insertion-ordered association list. -/
def dictInsert (k : String) (v : TREntry) : List (String × TREntry) → List (String × TREntry)
  | [] => [(k, v)]
  | p :: rest => if p.fst = k then (k, v) :: rest else p :: dictInsert k v rest

/-- `TimeRangeManager.save_timerange`: validate both dates with
`datetime.strptime(_, "%Y-%m-%d")` (a `ValueError` is caught and reported as
`False` with the store untouched), then store the entry and report `True`. -/
def saveTimerange (now : String) (tr : List (String × TREntry)) (name s e : String) :
    Bool × List (String × TREntry) :=
  if validDate s then
    if validDate e then (true, dictInsert name ⟨s, e, now⟩ tr)
    else (false, tr)
  else (false, tr)

/-- `TimeRangeManager.list_timeranges`: the keys of the dict. -/
def listTimeranges (tr : List (String × TREntry)) : List String := tr.map Prod.fst

/-- `TimeRangeManager.get_timerange`: `self.timeranges.get(name)`. -/
def getTimerange (tr : List (String × TREntry)) (name : String) : Option TREntry :=
  (tr.find? (fun p => p.fst = name)).map Prod.snd

/-! ## `AOIManager` (src/area_utils.py)

The GeoJSON feature collection is modelled as the list of its features, in file
order.  A feature keeps the `name` / `description` / `created` / `modified`
properties and the polygon `coordinates` (a list of rings, each ring a list of
points).  A point is a list of numbers (`[lon, lat]` in practice); the store
never computes with coordinates, so floats are modelled as exact rationals. -/

abbrev Point := List Rat

structure AOIFeature where
  name : String
  description : String
  created : String
  modified : String
  rings : List (List Point)
deriving DecidableEq

/-- `AOIManager.list_areas`: the `name` property of every feature, in order. -/
def listAreas (s : List AOIFeature) : List String := s.map AOIFeature.name

/-- `AOIManager.add_area`: raise `ValueError` (modelled as `Except.error`,
before any write) when the name is already listed, otherwise append the new
feature and save.  The error carries an abbreviated message. -/
def addArea (now : String) (s : List AOIFeature) (name : String) (ring : List Point)
    (description : String) : Except String (List AOIFeature) :=
  if name ∈ listAreas s then Except.error "duplicate area name"
  else Except.ok (s ++ [⟨name, description, now, now, [ring]⟩])

/-- The file contents after a call to `add_area`: a raised `ValueError` happens
before `_save_geojson`, so the backing store is untouched on the error path. -/
def storeAfterAdd (now : String) (s : List AOIFeature) (name : String) (ring : List Point)
    (description : String) : List AOIFeature :=
  match addArea now s name ring description with
  | Except.ok s2 => s2
  | Except.error _ => s

/-- `AOIManager.delete_area`: keep every feature whose name differs; total, so
deleting an absent name is not an error. -/
def deleteArea (s : List AOIFeature) (name : String) : List AOIFeature :=
  s.filter (fun f => f.name ≠ name)

/-- `AOIManager.get_area`: first feature with the given name, else `None`. -/
def getArea (s : List AOIFeature) (name : String) : Option AOIFeature :=
  s.find? (fun f => f.name = name)

/-- The body of `update_area`'s for-loop on one matching feature:
`if coordinates:` is Python truthiness (skip on `None` and on `[]`),
`if description is not None:` checks only for `None`, and `modified` is
refreshed. -/
def updateFeature (now : String) (coords : Option (List Point)) (description : Option String)
    (f : AOIFeature) : AOIFeature :=
  let f1 := match coords with
    | some cs => if cs.isEmpty then f else { f with rings := [cs] }
    | none => f
  let f2 := match description with
    | some d => { f1 with description := d }
    | none => f1
  { f2 with modified := now }

/-- `AOIManager.update_area`: rewrite the first feature with a matching name
(the loop breaks after one match) and save; with no match the collection is
saved unchanged, and no error is raised. -/
def updateArea (now : String) (name : String) (coords : Option (List Point))
    (description : Option String) : List AOIFeature → List AOIFeature
  | [] => []
  | f :: rest =>
    if f.name = name then updateFeature now coords description f :: rest
    else f :: updateArea now name coords description rest

/-- The outer ring of a feature's polygon (`coordinates[0]`). -/
def outerRing (f : AOIFeature) : List Point := f.rings.headD []

/-- Closing-point normalization of a ring: append the first point when the ring
is not already closed. -/
def closeRing (r : List Point) : List Point :=
  match r.head?, r.getLast? with
  | some a, some b => if a = b then r else r ++ [a]
  | _, _ => r

/-! ## `SARManager` (src/sar_utils.py)

The Earth Engine collaborator is abstracted into an environment `SAREnv`:
whether `ee.Date` accepts a string, the day difference reported by
`ee.Date.difference(_, "day").getInfo()`, the matched Sentinel-1 items for a
(geometry, date-range) query, the geometry's area in km2 and its bounds.
Geometries and bounds are opaque handles (strings).

The composite pipeline itself is embedded as a small syntax of image
operations, so that the shape of the built expression can be compared against
the spec's description. -/

structure SARItem where
  id : Nat
  pols : List String
  mode : String
  orbit : String
deriving DecidableEq

/-- One per-item transform step inside a temporal reduction. -/
inductive PerItemStep where
  | selectBand : String → PerItemStep
  | clipToFootprint : PerItemStep
  | despeckle : PerItemStep
  | rescaleToByte : PerItemStep
deriving DecidableEq

/-- Image-expression syntax: map a per-item step chain over the listed items and
reduce temporally by max; rename a band; concatenate three bands; apply a
focal-median spatial smoothing pass. -/
inductive ImgExpr where
  | reduceMax : List PerItemStep → List Nat → ImgExpr
  | renameBand : String → ImgExpr → ImgExpr
  | cat3 : ImgExpr → ImgExpr → ImgExpr → ImgExpr
  | focalMedian : ImgExpr → ImgExpr
deriving DecidableEq

/-- The metadata pre-filter of `_create_composite`: dual-polarisation (list
contains both VV and VH) and IW instrument mode. -/
def compositeFilter (items : List SARItem) : List SARItem :=
  ((items.filter (fun it => it.pols.contains "VV")).filter
      (fun it => it.pols.contains "VH")).filter (fun it => it.mode = "IW")

/-- `SARManager._create_composite`: filter, split by `orbitProperties_pass`,
take per-partition `select("VH").max()`, merge both partitions' VV and take its
max, concatenate the three renamed bands and apply `focal_median()`. -/
def createComposite (items : List SARItem) : ImgExpr :=
  let filtered := compositeFilter items
  let ascending := filtered.filter (fun it => it.orbit = "ASCENDING")
  let descending := filtered.filter (fun it => it.orbit = "DESCENDING")
  let vhAscending := ImgExpr.reduceMax [PerItemStep.selectBand "VH"] (ascending.map SARItem.id)
  let vhDescending := ImgExpr.reduceMax [PerItemStep.selectBand "VH"] (descending.map SARItem.id)
  let vvCombined := ImgExpr.reduceMax [PerItemStep.selectBand "VV"]
    (ascending.map SARItem.id ++ descending.map SARItem.id)
  ImgExpr.focalMedian (ImgExpr.cat3
    (ImgExpr.renameBand "VH_ascending" vhAscending)
    (ImgExpr.renameBand "VH_descending" vhDescending)
    (ImgExpr.renameBand "VV_combined" vvCombined))

/-- The multi-channel directional composite as the spec describes it: partition
the matched items by orbit pass (no metadata pre-filter is mentioned); within
each partition, per item select a channel, clip to the item's own footprint,
apply a spatial despeckling filter and linearly rescale a fixed source interval
onto [0,255]; reduce each partition temporally by max; compute a third band by
merging both partitions' other channel and reducing by max; concatenate the
three reduced bands; apply one final spatial smoothing pass. -/
def specDirectionalComposite (items : List SARItem) : ImgExpr :=
  let ascending := items.filter (fun it => it.orbit = "ASCENDING")
  let descending := items.filter (fun it => it.orbit = "DESCENDING")
  let chain := [PerItemStep.selectBand "VH", PerItemStep.clipToFootprint,
    PerItemStep.despeckle, PerItemStep.rescaleToByte]
  let vhAscending := ImgExpr.reduceMax chain (ascending.map SARItem.id)
  let vhDescending := ImgExpr.reduceMax chain (descending.map SARItem.id)
  let vvCombined := ImgExpr.reduceMax [PerItemStep.selectBand "VV"]
    (ascending.map SARItem.id ++ descending.map SARItem.id)
  ImgExpr.focalMedian (ImgExpr.cat3
    (ImgExpr.renameBand "VH_ascending" vhAscending)
    (ImgExpr.renameBand "VH_descending" vhDescending)
    (ImgExpr.renameBand "VV_combined" vvCombined))

/-- The directional composite as the code actually builds it (the amended
description): pre-filter to dual-polarisation IW items, partition by orbit
pass, per-partition temporal max of the plain VH selection (no per-item clip,
despeckle or rescale), temporal max of the merged partitions' VV selection,
concatenate the three renamed bands, one focal-median smoothing pass. -/
def amendedDirectionalComposite (items : List SARItem) : ImgExpr :=
  let filtered := compositeFilter items
  let ascending := filtered.filter (fun it => it.orbit = "ASCENDING")
  let descending := filtered.filter (fun it => it.orbit = "DESCENDING")
  let vhAscending := ImgExpr.reduceMax [PerItemStep.selectBand "VH"] (ascending.map SARItem.id)
  let vhDescending := ImgExpr.reduceMax [PerItemStep.selectBand "VH"] (descending.map SARItem.id)
  let vvCombined := ImgExpr.reduceMax [PerItemStep.selectBand "VV"]
    (ascending.map SARItem.id ++ descending.map SARItem.id)
  ImgExpr.focalMedian (ImgExpr.cat3
    (ImgExpr.renameBand "VH_ascending" vhAscending)
    (ImgExpr.renameBand "VH_descending" vhDescending)
    (ImgExpr.renameBand "VV_combined" vvCombined))

structure SAREnv where
  dateOk : String → Bool
  diffDays : String → String → Int
  matched : String → String → String → List SARItem
  areaKm2 : String → Rat
  boundsOf : String → String

/-- The message built by `_validate_dates`'s `except` clause (abbreviated). -/
def invalidDateMsg : String := "Invalid date format. Dates should be in YYYY-MM-DD format."

/-- `SARManager._validate_dates`: any failure inside the `try` block — either
`ee.Date` constructor rejecting a string, or the explicit
`end.difference(start, "day") <= 0` check — is re-raised as one `ValueError`.
`diffDays e s` stands for `ee_end_date.difference(ee_start_date, "day")`. -/
def validateDates (env : SAREnv) (s e : String) : Except String (String × String) :=
  if env.dateOk s then
    if env.dateOk e then
      if env.diffDays e s ≤ 0 then Except.error invalidDateMsg
      else Except.ok (s, e)
    else Except.error invalidDateMsg
  else Except.error invalidDateMsg

structure SARData where
  composite : ImgExpr
  collection_size : Nat
  bounds : String
  timestamp : String
deriving DecidableEq

/-- `SARManager.process_area`, parameterized by the composite builder it
delegates to: validate the dates (a failure propagates — the method re-raises),
resolve the matched collection; with zero items return `None`; otherwise build
the composite and return the `SARData`. -/
def processAreaWith (builder : List SARItem → ImgExpr) (env : SAREnv)
    (now geom s e : String) : Except String (Option SARData) :=
  match validateDates env s e with
  | Except.error m => Except.error m
  | Except.ok _ =>
    let coll := env.matched geom s e
    if coll.length = 0 then Except.ok none
    else Except.ok (some ⟨builder coll, coll.length, env.boundsOf geom, now⟩)

/-- `SARManager.process_area` itself delegates to `_create_composite`. -/
def processArea (env : SAREnv) (now geom s e : String) : Except String (Option SARData) :=
  processAreaWith createComposite env now geom s e

def collectionId : String := "COPERNICUS/S1_GRD"

/-- The dictionary `preview_query` returns, flattened to its leaf fields:
`error` (absent on success), `area_info.size_km2`, `date_range.start`,
`date_range.end`, `results_preview.image_count`,
`results_preview.estimated_size_mb` and the four fixed `query_params`. -/
structure PreviewResult where
  error : Option String
  sizeKm2 : Rat
  startDate : String
  endDate : String
  imageCount : Nat
  estimatedSizeMb : Rat
  collection : String
  polarisation : String
  mode : String
  orbit : String
deriving DecidableEq

/-- `SARManager.preview_query`: on a `ValueError` from date validation the
method catches and returns a dictionary with an `error` key, zero counts and
sizes, and the input dates echoed; on success it reports the matched count, the
geometry's area and `count * 0.5` MB. -/
def previewQuery (env : SAREnv) (geom s e : String) : PreviewResult :=
  match validateDates env s e with
  | Except.ok _ =>
    let size := (env.matched geom s e).length
    ⟨none, env.areaKm2 geom, s, e, size, (size : Rat) * (1 / 2),
      collectionId, "VH", "IW", "DESCENDING"⟩
  | Except.error m =>
    ⟨some m, 0, s, e, 0, 0, collectionId, "VH", "IW", "DESCENDING"⟩

/-! ## Concrete fixtures used by witnesses and counterexamples -/

/-- A feature named `A` with a one-point ring. -/
def featA : AOIFeature := ⟨"A", "", "T0", "T0", [[[0, 0]]]⟩

/-- A dual-polarisation IW ascending item. -/
def itemAsc : SARItem := ⟨0, ["VV", "VH"], "IW", "ASCENDING"⟩

/-- An environment whose queries match nothing and whose dates all parse. -/
def sarEnvNoData : SAREnv := ⟨fun _ => true, fun _ _ => 1, fun _ _ _ => [], fun _ => 0, fun _ => "B"⟩

/-- An environment whose queries match exactly `itemAsc`. -/
def sarEnvOneItem : SAREnv :=
  ⟨fun _ => true, fun _ _ => 1, fun _ _ _ => [itemAsc], fun _ => 0, fun _ => "B"⟩

/-- An environment whose `ee.Date` rejects every string. -/
def sarEnvBadDates : SAREnv :=
  ⟨fun _ => false, fun _ _ => 1, fun _ _ _ => [], fun _ => 0, fun _ => "B"⟩

/-! ## Helper lemmas -/

theorem dictInsert_get (k : String) (v : TREntry) (tr : List (String × TREntry)) :
    getTimerange (dictInsert k v tr) k = some v := by
  induction tr with
  | nil => simp [dictInsert, getTimerange]
  | cons p rest ih =>
    by_cases h : p.fst = k
    · simp [dictInsert, getTimerange, h]
    · simpa [dictInsert, getTimerange, List.find?, h] using ih

theorem dictInsert_keys_of_mem (k : String) (v : TREntry) (tr : List (String × TREntry))
    (h : k ∈ listTimeranges tr) : listTimeranges (dictInsert k v tr) = listTimeranges tr := by
  induction tr with
  | nil => simp [listTimeranges] at h
  | cons p rest ih =>
    by_cases hp : p.fst = k
    · simp [dictInsert, hp, listTimeranges]
    · have hmem : k ∈ listTimeranges rest := by
        rcases (by simpa [listTimeranges] using h) with h1 | h2
        · exact absurd h1.symm hp
        · simpa [listTimeranges] using h2
      have hrec := ih hmem
      simp [dictInsert, hp, listTimeranges] at hrec ⊢
      exact hrec

theorem getArea_append_fresh (s : List AOIFeature) (f : AOIFeature)
    (h : f.name ∉ listAreas s) : getArea (s ++ [f]) f.name = some f := by
  induction s with
  | nil => simp [getArea, List.find?]
  | cons g rest ih =>
    have hg : g.name ≠ f.name := by
      intro he
      exact h (by simp [listAreas, he])
    have hr : f.name ∉ listAreas rest := by
      intro hm
      exact h (by simp [listAreas] at hm ⊢; exact Or.inr hm)
    have := ih hr
    simp [getArea, List.find?, hg] at this ⊢
    exact this

/-! ## Claims -/

/-- C1 counterexample: the well-formed but non-chronological range
(start `2024-01-01`, end `2023-12-01`) is accepted by `save_timerange`: the call
returns `True` and the store gains the entry, contradicting the claim that every
non-chronological pair is rejected with the store unchanged. -/
theorem saveTimerange_accepts_nonchronological :
    saveTimerange "T" [] "Q1" "2024-01-01" "2023-12-01" =
      (true, [("Q1", ⟨"2024-01-01", "2023-12-01", "T"⟩)]) := by decide

/-- C1 (amended): `save_timerange` returns `False` exactly when one of the two
date strings fails `%Y-%m-%d` parsing, and in that case the store is unchanged;
chronological order of the two dates is not checked. -/
theorem saveTimerange_fails_iff_malformed (now : String) (tr : List (String × TREntry))
    (name s e : String) :
    ((saveTimerange now tr name s e).fst = false
        ↔ (validDate s = false ∨ validDate e = false))
    ∧ ((validDate s = false ∨ validDate e = false) →
        saveTimerange now tr name s e = (false, tr)) := by
  unfold saveTimerange
  cases hs : validDate s <;> cases he : validDate e <;> simp

/-- C1 witness: `2024-13-01` is malformed, and saving it fails with the empty
store left empty. -/
theorem saveTimerange_fails_iff_malformed_witness :
    validDate "2024-13-01" = false
    ∧ saveTimerange "T" [] "Q" "2024-13-01" "2024-01-05" = (false, []) :=
  ⟨by decide,
   (saveTimerange_fails_iff_malformed "T" [] "Q" "2024-13-01" "2024-01-05").2
     (Or.inl (by decide))⟩

/-- C2 counterexample: a one-point ring is accepted by `add_area` on an empty
store — the feature is appended and no invalid-geometry error is raised,
contradicting the claim that rings with fewer than 3 points fail. -/
theorem addArea_accepts_short_ring :
    addArea "T" [] "A" [[25, 54]] "" =
      Except.ok [⟨"A", "", "T", "T", [[[25, 54]]]⟩] := by
  simp [addArea, listAreas]

/-- C2 (amended): `add_area` performs no geometry validation at all — any ring,
of any point count, is accepted whenever the name is fresh, and the feature is
appended; only duplicate names are rejected. -/
theorem addArea_fresh_name_succeeds (now : String) (s : List AOIFeature) (name : String)
    (ring : List Point) (description : String) (h : name ∉ listAreas s) :
    addArea now s name ring description =
      Except.ok (s ++ [⟨name, description, now, now, [ring]⟩]) := by
  simp [addArea, h]

/-- C2 witness: adding a fresh two-point ring over a nonempty store succeeds. -/
theorem addArea_fresh_name_succeeds_witness :
    "B" ∉ listAreas [featA]
    ∧ addArea "T" [featA] "B" [[1, 2], [3, 4]] "d" =
        Except.ok [featA, ⟨"B", "d", "T", "T", [[[1, 2], [3, 4]]]⟩] :=
  ⟨by decide, addArea_fresh_name_succeeds "T" [featA] "B" [[1, 2], [3, 4]] "d" (by decide)⟩

/-- C3 counterexample: updating the absent name `X` (with new coordinates and a
new description supplied) on a store holding only `A` raises nothing and returns
the store unchanged — `update_area` silently succeeds instead of failing with a
not-found error. -/
theorem updateArea_absent_silent :
    updateArea "T2" "X" (some [[1, 2]]) (some "d") [featA] = [featA] := by decide

/-- C3 (amended): `update_area` on a name absent from the store is a silent
no-op: no error is raised, and the saved collection equals the loaded one, for
every combination of optional coordinates and description. -/
theorem updateArea_absent_noop (now name : String) (coords : Option (List Point))
    (description : Option String) (s : List AOIFeature) (h : name ∉ listAreas s) :
    updateArea now name coords description s = s := by
  induction s with
  | nil => rfl
  | cons f rest ih =>
    have hf : f.name ≠ name := by
      intro he
      exact h (by simp [listAreas, he])
    have hr : name ∉ listAreas rest := by
      intro hm
      exact h (by simp [listAreas] at hm ⊢; exact Or.inr hm)
    simp [updateArea, hf, ih hr]

/-- C3 witness: updating the absent name `Y` with only a description supplied
leaves the one-feature store as it was. -/
theorem updateArea_absent_noop_witness :
    "Y" ∉ listAreas [featA]
    ∧ updateArea "T3" "Y" none (some "d2") [featA] = [featA] :=
  ⟨by decide, updateArea_absent_noop "T3" "Y" none (some "d2") [featA] (by decide)⟩

/-- C4: `add_area` with a name already present raises the duplicate-name
`ValueError` before any write, so the backing collection — and hence
`list_areas` — is exactly as it was. -/
theorem addArea_duplicate_rejected (now : String) (s : List AOIFeature) (name : String)
    (ring : List Point) (description : String) (h : name ∈ listAreas s) :
    addArea now s name ring description = Except.error "duplicate area name"
    ∧ listAreas (storeAfterAdd now s name ring description) = listAreas s := by
  refine ⟨by simp [addArea, h], ?_⟩
  simp [storeAfterAdd, addArea, h]

/-- C4 witness: re-adding the name `A` with a different ring fails and keeps
`list_areas` equal to `["A"]`. -/
theorem addArea_duplicate_rejected_witness :
    "A" ∈ listAreas [featA]
    ∧ addArea "T9" [featA] "A" [[5, 6], [7, 8], [9, 10]] "x" =
        Except.error "duplicate area name"
    ∧ listAreas (storeAfterAdd "T9" [featA] "A" [[5, 6], [7, 8], [9, 10]] "x") =
        listAreas [featA] :=
  ⟨by decide,
   (addArea_duplicate_rejected "T9" [featA] "A" [[5, 6], [7, 8], [9, 10]] "x" (by decide)).1,
   (addArea_duplicate_rejected "T9" [featA] "A" [[5, 6], [7, 8], [9, 10]] "x" (by decide)).2⟩

/-- C5: once the dates validate, `process_area` on a query matching zero items
returns `None` — the explicit not-found signal, not an error — and the result
does not depend on the composite builder at all (it is `Except.ok none` for
every builder, so `_create_composite` is never invoked); on a nonzero match it
returns the `SARData` whose composite `_create_composite` built. -/
theorem processArea_empty_not_found (env : SAREnv) (now geom s e : String)
    (h : validateDates env s e = Except.ok (s, e)) :
    ((env.matched geom s e).length = 0 →
      ∀ builder : List SARItem → ImgExpr,
        processAreaWith builder env now geom s e = Except.ok none)
    ∧ ((env.matched geom s e).length ≠ 0 →
      processArea env now geom s e = Except.ok (some
        ⟨createComposite (env.matched geom s e), (env.matched geom s e).length,
          env.boundsOf geom, now⟩)) := by
  constructor
  · intro h0 builder
    simp [processAreaWith, h, h0]
  · intro h0
    simp [processArea, processAreaWith, h, h0]

/-- C5 witness: on the no-match environment, two different builders both give
`Except.ok none`; on the one-item environment, the result is the composite of
that item. -/
theorem processArea_empty_not_found_witness :
    validateDates sarEnvNoData "2024-01-01" "2024-02-01" =
      Except.ok ("2024-01-01", "2024-02-01")
    ∧ processAreaWith specDirectionalComposite sarEnvNoData "T" "G" "2024-01-01" "2024-02-01" =
        Except.ok none
    ∧ processAreaWith createComposite sarEnvNoData "T" "G" "2024-01-01" "2024-02-01" =
        Except.ok none
    ∧ processArea sarEnvOneItem "T" "G" "2024-01-01" "2024-02-01" =
        Except.ok (some ⟨createComposite [itemAsc], 1, "B", "T"⟩) :=
  ⟨rfl,
   (processArea_empty_not_found sarEnvNoData "T" "G" "2024-01-01" "2024-02-01" rfl).1
     rfl specDirectionalComposite,
   (processArea_empty_not_found sarEnvNoData "T" "G" "2024-01-01" "2024-02-01" rfl).1
     rfl createComposite,
   (processArea_empty_not_found sarEnvOneItem "T" "G" "2024-01-01" "2024-02-01" rfl).2
     (by decide)⟩

/-- C6 counterexample: on the one-item collection `[itemAsc]` the composite the
code builds differs from the one the claim describes — the code maps a plain
channel selection over each partition, with no per-item clip-to-footprint,
despeckling or rescale-to-[0,255] step before the temporal max. -/
theorem createComposite_ne_spec :
    createComposite [itemAsc] ≠ specDirectionalComposite [itemAsc] := by decide

/-- C6 (amended): `_create_composite` first filters the matched items to those
carrying both VV and VH polarisation in IW mode, partitions them by orbit pass,
reduces each partition's plain VH selection temporally by max (no per-item
clip, despeckle or rescale), reduces the merged partitions' VV selection by
max, concatenates the three renamed bands, and applies a single final
focal-median smoothing pass over the whole composite. -/
theorem createComposite_eq_amended (items : List SARItem) :
    createComposite items = amendedDirectionalComposite items := rfl

/-- C7: adding a fresh name with a ring of at least 3 points and then getting
that name returns a feature whose outer ring equals the input ring up to
closing-point normalization (the code stores the ring verbatim). -/
theorem addArea_getArea_roundtrip (now : String) (s : List AOIFeature) (name : String)
    (ring : List Point) (description : String) (h3 : 3 ≤ ring.length)
    (h : name ∉ listAreas s) :
    ∃ s2 f, addArea now s name ring description = Except.ok s2
      ∧ getArea s2 name = some f ∧ closeRing (outerRing f) = closeRing ring := by
  refine ⟨s ++ [⟨name, description, now, now, [ring]⟩],
    ⟨name, description, now, now, [ring]⟩, ?_, ?_, rfl⟩
  · simp [addArea, h]
  · exact getArea_append_fresh s ⟨name, description, now, now, [ring]⟩ h

/-- C7 witness: the spec's `Field A` scenario ring (closed up here to integer
rationals) round-trips through `add_area` and `get_area`. -/
theorem addArea_getArea_roundtrip_witness :
    3 ≤ ([[25, 54], [26, 54], [26, 55], [25, 55]] : List Point).length
    ∧ "Field A" ∉ listAreas [featA]
    ∧ ∃ s2 f, addArea "T" [featA] "Field A" [[25, 54], [26, 54], [26, 55], [25, 55]] "" =
          Except.ok s2
        ∧ getArea s2 "Field A" = some f
        ∧ closeRing (outerRing f) = closeRing [[25, 54], [26, 54], [26, 55], [25, 55]] :=
  ⟨by decide, by decide,
   addArea_getArea_roundtrip "T" [featA] "Field A"
     [[25, 54], [26, 54], [26, 55], [25, 55]] "" (by decide) (by decide)⟩

/-- C8: `delete_area` is idempotent — deleting the same name twice produces the
same store as deleting it once (and raises nothing, being a total filter) — and
deleting an absent name leaves the store exactly as it was. -/
theorem deleteArea_idempotent (s : List AOIFeature) (name : String) :
    deleteArea (deleteArea s name) name = deleteArea s name
    ∧ (name ∉ listAreas s → deleteArea s name = s) := by
  constructor
  · induction s with
    | nil => rfl
    | cons f rest ih =>
      by_cases hf : f.name = name
      · simpa [deleteArea, hf] using ih
      · simpa [deleteArea, hf] using ih
  · intro h
    induction s with
    | nil => rfl
    | cons f rest ih =>
      have hf : f.name ≠ name := by
        intro he
        exact h (by simp [listAreas, he])
      have hr : name ∉ listAreas rest := by
        intro hm
        exact h (by simp [listAreas] at hm ⊢; exact Or.inr hm)
      simp [deleteArea, hf] at ih ⊢
      exact ih hr

/-- C8 witness: deleting the absent name `B` from the one-feature store twice is
the same as deleting it once, and changes nothing. -/
theorem deleteArea_idempotent_witness :
    deleteArea (deleteArea [featA] "B") "B" = deleteArea [featA] "B"
    ∧ ("B" ∉ listAreas [featA]) ∧ deleteArea [featA] "B" = [featA] :=
  ⟨(deleteArea_idempotent [featA] "B").1, by decide,
   (deleteArea_idempotent [featA] "B").2 (by decide)⟩

/-- C9: with both dates well-formed, `save_timerange` on a name already present
returns `True` and silently overwrites that name's entry in place — the key set
is unchanged and the stored entry is the new one (a dict upsert, with no
duplicate-name rejection). -/
theorem saveTimerange_overwrites (now : String) (tr : List (String × TREntry)) (name s e : String)
    (hmem : name ∈ listTimeranges tr) (hs : validDate s = true) (he : validDate e = true) :
    (saveTimerange now tr name s e).fst = true
    ∧ (saveTimerange now tr name s e).snd = dictInsert name ⟨s, e, now⟩ tr
    ∧ getTimerange (saveTimerange now tr name s e).snd name = some ⟨s, e, now⟩
    ∧ listTimeranges (saveTimerange now tr name s e).snd = listTimeranges tr := by
  refine ⟨by simp [saveTimerange, hs, he], by simp [saveTimerange, hs, he], ?_, ?_⟩
  · simp [saveTimerange, hs, he, dictInsert_get]
  · simp [saveTimerange, hs, he, dictInsert_keys_of_mem name _ tr hmem]

/-- C9 witness: re-saving the existing name `Q1` with new well-formed dates
succeeds and replaces its entry, keeping the key list `["Q1"]`. -/
theorem saveTimerange_overwrites_witness :
    "Q1" ∈ listTimeranges [("Q1", ⟨"2024-01-01", "2024-02-01", "T0"⟩)]
    ∧ validDate "2024-03-01" = true ∧ validDate "2024-04-01" = true
    ∧ (saveTimerange "T1" [("Q1", ⟨"2024-01-01", "2024-02-01", "T0"⟩)]
        "Q1" "2024-03-01" "2024-04-01").fst = true
    ∧ getTimerange (saveTimerange "T1" [("Q1", ⟨"2024-01-01", "2024-02-01", "T0"⟩)]
        "Q1" "2024-03-01" "2024-04-01").snd "Q1" = some ⟨"2024-03-01", "2024-04-01", "T1"⟩ :=
  ⟨by decide, by decide, by decide,
   (saveTimerange_overwrites "T1" [("Q1", ⟨"2024-01-01", "2024-02-01", "T0"⟩)]
     "Q1" "2024-03-01" "2024-04-01" (by decide) (by decide) (by decide)).1,
   (saveTimerange_overwrites "T1" [("Q1", ⟨"2024-01-01", "2024-02-01", "T0"⟩)]
     "Q1" "2024-03-01" "2024-04-01" (by decide) (by decide) (by decide)).2.2.1⟩

/-- C10: when date validation fails (the environment rejects a date string, or
reports a day difference of at most zero), `preview_query` does not raise: it
returns the dictionary carrying the `error` message, zero `size_km2`, zero
`image_count`, zero `estimated_size_mb`, the fixed query parameters, and the
two input date strings echoed unchanged. -/
theorem previewQuery_error_shape (env : SAREnv) (geom s e m : String)
    (h : validateDates env s e = Except.error m) :
    previewQuery env geom s e =
      ⟨some m, 0, s, e, 0, 0, collectionId, "VH", "IW", "DESCENDING"⟩ := by
  simp [previewQuery, h]

/-- C10 witness: with every date string rejected, previewing echoes the dates
and reports the error dictionary with zero counts and sizes. -/
theorem previewQuery_error_shape_witness :
    validateDates sarEnvBadDates "bad" "2024-01-01" = Except.error invalidDateMsg
    ∧ previewQuery sarEnvBadDates "G" "bad" "2024-01-01" =
        ⟨some invalidDateMsg, 0, "bad", "2024-01-01",
          0, 0, collectionId, "VH", "IW", "DESCENDING"⟩ :=
  ⟨rfl, previewQuery_error_shape sarEnvBadDates "G" "bad" "2024-01-01" invalidDateMsg rfl⟩
